import Mathlib

/-!
Verification of the workflow-orchestration core of the intelligent-ops agent
(`src/agents/intelligent_ops_agent.py`), shallowly embedded in Lean.

Modelling conventions:
* Python `float` confidences are embedded as `ℚ`.
* A Python `Optional` slot of the `ChatState` TypedDict is an `Option`;
  a missing key and `None` are both `none` (handlers use `state.get(k, default)`).
* Python truthiness: a list or dict is truthy iff non-empty, an object iff present.
* The external reasoning oracles (DSPy modules) are opaque per the design: they
  appear as function parameters of the node embeddings.
* `interrupt`-based suspension is embedded as an explicit exception value
  (`PyExc`): a node body that calls the Human-Interaction Gate either raises the
  suspension exception (fresh execution) or receives the operator's answer
  (resumed execution).  Exception handlers (`except Exception`) are embedded as
  explicit functions on `PyExc`.
* Message timestamps and float formatting inside message text are elided; no
  condition function inspects them (conditions only test fixed substrings).
-/

/-- Leading-segment test for character lists (`pat` starts `l`). -/
def subAt : List Char → List Char → Bool
  | [], _ => true
  | _ :: _, [] => false
  | a :: as, b :: bs => a == b && subAt as bs

/-- Does `pat` occur as a contiguous run inside `l`? -/
def hasSubList (pat : List Char) : List Char → Bool
  | [] => subAt pat []
  | b :: bs => subAt pat (b :: bs) || hasSubList pat bs

/-- Python's `pat in s` substring test. -/
def strHasSub (s pat : String) : Bool :=
  hasSubList pat.toList s.toList

/-- Is the string entirely whitespace?  Python's `s.strip()` is empty — i.e.
`s.strip()` is falsy — exactly when this holds. -/
def strBlank (s : String) : Bool :=
  s.toList.all Char.isWhitespace

/-- Python's `s.lower()` (ASCII case folding, the identity on everything else,
matching `str.lower` on the vocabularies involved). -/
def strLower (s : String) : String :=
  String.mk (s.toList.map Char.toLower)

/-- A chat message: `role` is `"human"` or `"ai"` (LangChain message type). -/
structure Msg where
  role : String
  content : String
deriving DecidableEq

/-- `AlertInfo` (from `dspy_modules/alert_analyzer.py`), fields relevant to the core. -/
structure AlertInfo where
  alert_id : String
  severity : String
  source : String
  message : String
deriving DecidableEq

/-- The `analysis_result` slot dict written by `_process_alert_node`. -/
structure AnalysisResult where
  priority : String
  category : String
  urgency_score : ℚ
deriving DecidableEq

/-- The diagnoser oracle's structured result (`DiagnosticResult` fields the core reads). -/
structure DiagResult where
  root_cause : String
  confidence_score : ℚ
  impact_assessment : String
  affected_components : List String
  business_impact : String
  recovery_time_estimate : String
  evidence : List String
deriving DecidableEq

/-- One step of an action plan (`steps[...]` dict in the `action_plan` slot). -/
structure Step where
  step_id : String
  action_type : String
  description : String
  command : String
  risk_level : String
deriving DecidableEq

/-- The `action_plan` slot dict written by `_plan_actions_node`. -/
structure ActionPlan where
  plan_id : String
  priority : String
  risk_assessment : String
  approval_required : Bool
  steps : List Step
deriving DecidableEq

/-- The `execution_result` slot dict written by `_execute_actions_node`.
Keys absent in a given branch of the Python code are modelled by the
defaults `[]` / `false` / `""`. -/
structure ExecResult where
  status : String
  plan_id : String
  reason : String
  executed_steps : List String
  failed_steps : List String
  approval_received : Bool
deriving DecidableEq

/-- The `report` slot dict written by `_generate_report_node` (status only). -/
structure Report where
  status : String
deriving DecidableEq

/-- The Shared State (`ChatState` TypedDict) threaded through every node.
`context` is the free-form ops-context dict, embedded as an association list. -/
structure ChatState where
  messages : List Msg
  alert_info : Option AlertInfo
  symptoms : Option (List String)
  context : Option (List (String × String))
  analysis_result : Option AnalysisResult
  diagnostic_result : Option DiagResult
  action_plan : Option ActionPlan
  execution_result : Option ExecResult
  report : Option Report
  errors : List String
deriving DecidableEq

/-- The entirely empty Shared State: every slot absent, no messages, no errors. -/
def emptyChatState : ChatState :=
  { messages := []
    alert_info := none
    symptoms := none
    context := none
    analysis_result := none
    diagnostic_result := none
    action_plan := none
    execution_result := none
    report := none
    errors := [] }

/-- Python truthiness of an optional list slot (`None` and `[]` are falsy). -/
def truthyList {α : Type} (o : Option (List α)) : Bool :=
  match o with
  | none => false
  | some l => !l.isEmpty

/-- The stage-name checks `_route_condition` runs, in source order, on the text
of a routing-analysis message (src lines 1357-1369). -/
def stage_from_routing_message (content : String) : Option String :=
  if strHasSub content "collect_info" then some "collect_info"
  else if strHasSub content "execute_actions" then some "execute_actions"
  else if strHasSub content "plan_actions" then some "plan_actions"
  else if strHasSub content "diagnose_issue" then some "diagnose_issue"
  else if strHasSub content "process_alert" then some "process_alert"
  else if strHasSub content "generate_report" then some "generate_report"
  else none

/-- `_route_condition`'s scan over `reversed(messages)` for the most recent
routing-analysis message naming a stage (src lines 1354-1369).  A marker
message naming no stage is skipped and the scan continues. -/
def scan_routing_messages : List Msg → Option String
  | [] => none
  | m :: rest =>
    if strHasSub m.content "🧠 **智能路由分析完成**" then
      match stage_from_routing_message m.content with
      | some s => some s
      | none => scan_routing_messages rest
    else scan_routing_messages rest

/-- The data-driven fallback chain of `_route_condition` (src lines 1371-1381):
fixed-order predicates on the slots, defaulting to `"diagnose_issue"`. -/
def data_driven_route (st : ChatState) : String :=
  if st.action_plan.isSome && !st.execution_result.isSome then "execute_actions"
  else if st.diagnostic_result.isSome && !st.action_plan.isSome then "plan_actions"
  else if (truthyList st.symptoms || st.alert_info.isSome)
          && !st.diagnostic_result.isSome then "diagnose_issue"
  else if st.alert_info.isSome && !st.analysis_result.isSome then "process_alert"
  else "diagnose_issue"

/-- `_route_condition` (src lines 1349-1381): follow the most recent
routing-analysis message if one names a stage, else data-driven inference. -/
def route_condition (st : ChatState) : String :=
  match scan_routing_messages st.messages.reverse with
  | some s => s
  | none => data_driven_route st

/-- A Python exception value: its type's `__name__` and its `str(...)` form. -/
structure PyExc where
  typeName : String
  msg : String
deriving DecidableEq

/-- The suspension signal: the `GraphInterrupt` exception raised by LangGraph's
`interrupt(...)` call inside the Human-Interaction Gate helpers. -/
def graphInterruptExc : PyExc :=
  { typeName := "GraphInterrupt", msg := "interrupt request pending" }

/-- `_create_error_state` (src lines 1194-1204): append a standardized
error descriptor to `errors`. -/
def create_error_state (st : ChatState) (errMsg nodeName : String) : ChatState :=
  { st with errors := st.errors ++ [nodeName ++ " error: " ++ errMsg] }

/-- `_add_ai_message_to_state` (src lines 1176-1192): append an AI message
(the `messages` list is always present in `ChatState`). -/
def add_ai_message (st : ChatState) (content : String) : ChatState :=
  { st with messages := st.messages ++ [{ role := "ai", content := content }] }

/-- The guard both `_intelligent_route_node`, `_diagnose_issue_node` and
`_execute_actions_node` run in their `except` clause before re-raising:
`"Interrupt" in type(e).__name__ or "interrupt" in str(e).lower()`. -/
def looksLikeInterrupt (e : PyExc) : Bool :=
  strHasSub e.typeName "Interrupt" || strHasSub (strLower e.msg) "interrupt"

/-- The `except Exception` clause of `_collect_info_node` (src lines 494-495):
it unconditionally converts ANY exception — the suspension signal included —
into an `errors` entry and returns normally. -/
def collect_info_except (st : ChatState) (e : PyExc) : Except PyExc ChatState :=
  Except.ok (create_error_state st e.msg "collect_info")

/-- The `except Exception` clause of `_diagnose_issue_node` (src lines 744-748):
re-raise when the exception looks like the suspension signal, otherwise
convert it into an `errors` entry. -/
def diagnose_issue_except (st : ChatState) (e : PyExc) : Except PyExc ChatState :=
  if looksLikeInterrupt e then Except.error e
  else Except.ok (create_error_state st e.msg "diagnose_issue")

/-- One completed execution of `_collect_info_node` (src lines 461-495).
`gate` is what the `request_operator_input` call inside the body does:
`Except.error e` models the call raising (on a fresh execution the
Human-Interaction Gate raises the suspension signal), `Except.ok ans` models a
resumed execution in which the gate returns the operator's answer.  The answer
is appended to `messages` as a human message; any raised exception lands in
`collect_info_except`. -/
def collect_info_run (gate : Except PyExc String) (st : ChatState) :
    Except PyExc ChatState :=
  match gate with
  | Except.ok info =>
      Except.ok { st with messages := st.messages ++ [{ role := "human", content := info }] }
  | Except.error e => collect_info_except st e

/-- The oracle router's structured decision (`RouterDecision` in
`dspy_modules/intelligent_router.py`).  `primary_intent` is the attribute
`_process_alert_node` dereferences on the decision object. -/
structure RouterDecision where
  extracted_alerts : Option AlertInfo
  extracted_symptoms : Option (List String)
  extracted_context : Option (List (String × String))
  next_task : String
  urgency_level : String
  confidence : ℚ
  user_message : String
  primary_intent : String
deriving DecidableEq

/-- `_get_latest_user_or_system_input` (src lines 1223-1240), applied to the
already-reversed message list: return the first message that either carries a
redirect marker (`原始意图` / `前置条件缺失`) or is a human message; skip
empty-content and other AI messages; default `""`. -/
def get_latest_input : List Msg → String
  | [] => ""
  | m :: rest =>
    if m.content ≠ "" then
      if strHasSub m.content "原始意图" || strHasSub m.content "前置条件缺失" then
        m.content
      else if m.role == "human" then m.content
      else get_latest_input rest
    else get_latest_input rest

/-- Python's `list(set(old + new))`: the deduplicated union of two string
lists.  Python iterates the set in an unspecified order; we fix the canonical
first-occurrence order (`List.dedup`) — every claim about the result is
order-independent (set-level). -/
def pySetUnion (old new : List String) : List String :=
  (old ++ new).dedup

/-- Python's `{**old, **new}` on the context dict: keys of `old` not overridden
keep their values, entries of `new` win. -/
def mergeCtx (old new : List (String × String)) : List (String × String) :=
  old.filter (fun p => !(new.any (fun q => q.1 == p.1))) ++ new

/-- First phase of `_apply_extracted_info` (src lines 1247-1250): write the
router's extracted alert only into an empty `alert_info` slot. -/
def apply_alert (st : ChatState) (d : RouterDecision) : ChatState :=
  match d.extracted_alerts with
  | some a => if st.alert_info.isSome then st else { st with alert_info := some a }
  | none => st

/-- Second phase of `_apply_extracted_info` (src lines 1253-1255): union the
extracted symptoms into `symptoms` via `list(set(existing + new))`.  A
`none`/empty extraction is falsy in Python and leaves the slot untouched. -/
def apply_symptoms (st : ChatState) (d : RouterDecision) : ChatState :=
  match d.extracted_symptoms with
  | some newSyms =>
      if newSyms.isEmpty then st
      else { st with symptoms := some (pySetUnion (st.symptoms.getD []) newSyms) }
  | none => st

/-- Third phase of `_apply_extracted_info` (src lines 1258-1260): merge the
extracted context into `context` via `{**existing, **new}`. -/
def apply_context (st : ChatState) (d : RouterDecision) : ChatState :=
  match d.extracted_context with
  | some newCtx =>
      if newCtx.isEmpty then st
      else { st with context := some (mergeCtx (st.context.getD []) newCtx) }
  | none => st

/-- `_apply_extracted_info` (src lines 1242-1262): the three phases in source
order. -/
def apply_extracted_info (st : ChatState) (d : RouterDecision) : ChatState :=
  apply_context (apply_symptoms (apply_alert st d) d) d

/-- `_create_routing_analysis_message` (src lines 1287-1294); the confidence
figure and timestamp are elided (no condition function reads them). -/
def routing_analysis_message (d : RouterDecision) : String :=
  "🧠 **智能路由分析完成**\n\n🎯 **下一步任务**: " ++ d.next_task ++
    "\n📊 **置信度**: \n🚨 **紧急程度**: " ++ d.urgency_level ++
    "\n💡 **用户消息**: " ++ d.user_message

/-- Outcome of one completed execution of `_intelligent_route_node`:
the resulting state, and whether the clarification gate was invoked. -/
structure RouteOutcome where
  state : ChatState
  clarificationRequested : Bool
deriving DecidableEq

/-- One completed execution of `_intelligent_route_node` (src lines 398-459).
`d1` is the oracle router's decision on the current input; when the
low-confidence (`< 0.2`) clarification gate fires, `clar` is the operator's
(resumed) clarification answer and `d2` the oracle's decision on re-routing
with it.  A non-blank clarification appends a human message and the re-routing
decision is used; otherwise the original decision stands.  Extracted info is
applied to the state and a routing-analysis message appended. -/
def intelligent_route_node (d1 d2 : RouterDecision) (clar : String)
    (st : ChatState) : RouteOutcome :=
  let user_input := get_latest_input st.messages.reverse
  if user_input = "" then
    { state := create_error_state st "No user input" "intelligent_route"
      clarificationRequested := false }
  else if d1.confidence < 0.2 then
    if clar ≠ "" ∧ strBlank clar = false then
      let st1 := { st with messages := st.messages ++ [{ role := "human", content := clar }] }
      let st2 := apply_extracted_info st1 d2
      { state := add_ai_message st2 (routing_analysis_message d2)
        clarificationRequested := true }
    else
      let st2 := apply_extracted_info st d1
      { state := add_ai_message st2 (routing_analysis_message d1)
        clarificationRequested := true }
  else
    let st2 := apply_extracted_info st d1
    { state := add_ai_message st2 (routing_analysis_message d1)
      clarificationRequested := false }

/-- The parameters a node's inline re-routing (`_redirect_to_router`) passes to
the router: the two oracle decisions and the clarification answer. -/
structure RouteParams where
  d1 : RouterDecision
  d2 : RouterDecision
  clar : String

/-- The redirect notice `_redirect_to_router` appends (src lines 1334-1338). -/
def redirect_message (reason intent : String) : String :=
  "⚠️ **前置条件缺失**\n\n💬 **原因**: " ++ reason ++
    "\n🎯 **原始意图**: " ++ intent ++
    "\n🔄 **正在重新规划**: 让我为您安排最优的处理路径"

/-- `_redirect_to_router` (src lines 1330-1344): append the redirect notice and
inline-invoke the router node on the updated state. -/
def redirect_to_router (reason intent : String) (rp : RouteParams)
    (st : ChatState) : ChatState :=
  (intelligent_route_node rp.d1 rp.d2 rp.clar
    (add_ai_message st (redirect_message reason intent))).state

/-- The diagnoser oracle's input (`DiagnosticContext`): built from the slots of
the current state, plus — on the enriched re-invocation only — the extra log
entry and `additional_context` human input derived from the operator's answer
(src lines 632-638 and 687-694). -/
structure DiagInput where
  symptoms : List String
  context : List (String × String)
  alert : Option AlertInfo
  extra_log : List String
  human_input : Option String
deriving DecidableEq

/-- The diagnostic context of the first oracle invocation (src lines 632-638). -/
def baseDiagInput (st : ChatState) : DiagInput :=
  { symptoms := st.symptoms.getD []
    context := st.context.getD []
    alert := st.alert_info
    extra_log := []
    human_input := none }

/-- The enriched diagnostic context of the one re-invocation (src lines 687-694):
the operator's answer is appended to the log entries and carried as
`additional_context.human_input`. -/
def enrichedDiagInput (st : ChatState) (ans : String) : DiagInput :=
  { symptoms := st.symptoms.getD []
    context := st.context.getD []
    alert := st.alert_info
    extra_log := ["运维人员补充: " ++ ans]
    human_input := some ans }

/-- The AI message announcing the low-confidence request (src lines 652-661). -/
def lowConfRequestMessage (r : DiagResult) : String :=
  "🤔 **诊断置信度低，需要您的帮助**\n\n🔍 **初步诊断**: " ++ r.root_cause

/-- The AI message announcing the re-diagnosis (src lines 704-709). -/
def reanalysisMessage (r : DiagResult) : String :=
  "🔄 **重新诊断完成**\n\n🔍 **更新诊断**: " ++ r.root_cause

/-- The stage-summary message of a completed diagnosis (src lines 731-742). -/
def diagDoneMessage (r : DiagResult) : String :=
  "🩺 **故障诊断完成**\n\n🔍 **根本原因**: " ++ r.root_cause

/-- Commit a diagnosis: write the `diagnostic_result` slot, then append the
stage-summary message (src lines 716-742). -/
def commit_diag (st : ChatState) (r : DiagResult) : ChatState :=
  add_ai_message { st with diagnostic_result := some r } (diagDoneMessage r)

/-- Outcome of one completed execution of `_diagnose_issue_node`: the resulting
state, how many times the diagnoser oracle was invoked, and how many times the
Human-Interaction Gate (`request_operator_input`) was invoked. -/
structure DiagnoseOutcome where
  state : ChatState
  oracleCalls : ℕ
  gateCalls : ℕ
deriving DecidableEq

/-- One completed (resumed, when the gate fires) execution of
`_diagnose_issue_node` (src lines 587-748).  Precondition (lines 591-597):
at least one of symptoms, context, alert must be truthy, else redirect to the
router without invoking the oracle.  Confidence gate (lines 647-714): when the
first result's confidence is `< 0.7`, invoke the gate once; the code re-invokes
the oracle exactly once iff the answer is truthy after `strip()` — i.e. iff it
is not blank (a whitespace-only answer is treated like an empty one) — else it
keeps the first result. -/
def diagnose_issue_node (orc : DiagInput → DiagResult) (ans : String)
    (rp : RouteParams) (st : ChatState) : DiagnoseOutcome :=
  if !(truthyList st.symptoms || truthyList st.context || st.alert_info.isSome) then
    { state := redirect_to_router "缺少基本问题信息（症状、上下文或告警）"
        "diagnose_issue" rp st
      oracleCalls := 0
      gateCalls := 0 }
  else
    let r1 := orc (baseDiagInput st)
    if r1.confidence_score < 0.7 then
      let st1 := add_ai_message st (lowConfRequestMessage r1)
      if ans ≠ "" ∧ strBlank ans = false then
        let st2 := { st1 with
          messages := st1.messages ++ [{ role := "human", content := "补充信息: " ++ ans }] }
        let r2 := orc (enrichedDiagInput st ans)
        let st3 := add_ai_message st2 (reanalysisMessage r2)
        { state := commit_diag st3 r2, oracleCalls := 2, gateCalls := 1 }
      else
        { state := commit_diag st1 r1, oracleCalls := 1, gateCalls := 1 }
    else
      { state := commit_diag st r1, oracleCalls := 1, gateCalls := 0 }

/-- The denylist of high-risk action verbs (src line 850). -/
def high_risk_actions : List String :=
  ["restart", "reboot", "delete", "remove", "kill", "stop"]

/-- Does a step match the high-risk denylist?  `_requires_execution_approval`'s
per-step check (src lines 851-858): case-insensitive substring match of any
denylist verb against the step's action type, description, or command. -/
def step_is_high_risk (step : Step) : Bool :=
  high_risk_actions.any (fun ra =>
    strHasSub (strLower step.action_type) ra ||
    strHasSub (strLower step.description) ra ||
    strHasSub (strLower step.command) ra)

/-- `_requires_execution_approval` (src lines 834-860) on a present plan:
risk assessment in high/critical, or an explicit approval flag, or any
denylist-matching step.  (The `if not action_plan: return False` guard is the
`none` case at the call site.) -/
def requires_execution_approval (plan : ActionPlan) : Bool :=
  if plan.risk_assessment == "high" || plan.risk_assessment == "critical" then true
  else if plan.approval_required then true
  else plan.steps.any step_is_high_risk

/-- The exact-match vocabulary the approval branch tests the lowercased reply
against for rejection (src line 881). -/
def approval_vocab_rejected : List String :=
  ["rejected", "deny", "no", "cancel"]

/-- The exact-match vocabulary for a modification request (src line 898). -/
def approval_vocab_modified : List String :=
  ["modified", "change", "update"]

/-- The AI message of the rejected branch (src lines 891-897). -/
def rejectedMessage (reply : String) : String :=
  "❌ **执行被拒绝**\n\n🚫 **拒绝原因**: " ++ reply

/-- The AI message of the modification branch (src lines 909-915); note its
own text announces a return to the planning stage. -/
def modificationMessage (reply : String) : String :=
  "🔄 **需要修改计划**\n\n📝 **修改要求**: " ++ reply ++ "\n➡️ **返回**: 行动规划阶段"

/-- The simulated execution loop plus result commit (src lines 936-980): every
step is executed (appended to `executed_steps`), none fails, status is
`"success"`, and `approval_received` records whether the plan required
approval. -/
def run_execution (plan : ActionPlan) (st : ChatState) : ChatState :=
  let executed := plan.steps.map Step.step_id
  let st1 := { st with
    execution_result := some
      { status := "success"
        plan_id := plan.plan_id
        reason := ""
        executed_steps := executed
        failed_steps := []
        approval_received := requires_execution_approval plan } }
  add_ai_message st1 "✅ **执行完成**"

/-- Outcome of one completed execution of `_execute_actions_node`: the
resulting state, and whether the approval gate (`request_execution_approval`)
was invoked.  The gate call precedes the execution loop in the source. -/
structure ExecOutcome where
  state : ChatState
  approvalRequested : Bool
deriving DecidableEq

/-- One completed (resumed, when the approval gate fires) execution of
`_execute_actions_node` (src lines 862-986).  `reply` is the operator's
normalized approval answer.  Missing plan → redirect to the router.  A plan
requiring approval suspends for the reply, records it as a human message, then
branches on exact membership of the lowercased reply: rejected → commit
`rejected_by_operator` with no step executed; modification → commit
`modification_requested` with no step executed; anything else → run the plan.
Without required approval, disabled auto-execution short-circuits; otherwise
the plan runs. -/
def execute_actions_node (reply : String) (auto_execution : Bool)
    (rp : RouteParams) (st : ChatState) : ExecOutcome :=
  match st.action_plan with
  | none =>
      { state := redirect_to_router "缺少行动计划" "execute_actions" rp st
        approvalRequested := false }
  | some plan =>
    if requires_execution_approval plan then
      let st1 := { st with
        messages := st.messages ++ [{ role := "human", content := "审批决策: " ++ reply }] }
      if approval_vocab_rejected.contains (strLower reply) then
        let st2 := { st1 with
          execution_result := some
            { status := "rejected_by_operator"
              plan_id := plan.plan_id
              reason := "执行被拒绝: " ++ reply
              executed_steps := []
              failed_steps := []
              approval_received := false } }
        { state := add_ai_message st2 (rejectedMessage reply)
          approvalRequested := true }
      else if approval_vocab_modified.contains (strLower reply) then
        let st2 := { st1 with
          execution_result := some
            { status := "modification_requested"
              plan_id := plan.plan_id
              reason := "需要修改计划: " ++ reply
              executed_steps := []
              failed_steps := []
              approval_received := false } }
        { state := add_ai_message st2 (modificationMessage reply)
          approvalRequested := true }
      else
        { state := run_execution plan st1, approvalRequested := true }
    else if !auto_execution then
      let st1 := { st with
        execution_result := some
          { status := "manual_approval_required"
            plan_id := plan.plan_id
            reason := ""
            executed_steps := []
            failed_steps := []
            approval_received := false } }
      { state := add_ai_message st1 "⚠️ **需要手动审批**", approvalRequested := false }
    else
      { state := run_execution plan st, approvalRequested := false }

/-- `_has_backjump_request` (src lines 1385-1392): does the last message carry
the redirect marker? -/
def has_backjump_request (st : ChatState) : Bool :=
  match st.messages.getLast? with
  | some m => strHasSub m.content "⚠️ **前置条件缺失**"
  | none => false

/-- `_execute_actions_condition` (src lines 1443-1459). -/
def execute_actions_condition (enable_reporting : Bool) (st : ChatState) : String :=
  if !st.errors.isEmpty then "error"
  else if has_backjump_request st then "intelligent_route"
  else if st.execution_result.isSome && enable_reporting then "generate_report"
  else if st.execution_result.isSome then "finalize"
  else "intelligent_route"

/-- The targets the graph's conditional edge out of `execute_actions` maps
(src lines 343-351): any other label returned by the condition function is
unmapped. -/
def execute_actions_edge_targets : List String :=
  ["finalize", "collect_info", "error"]

/-- A concrete oracle-router decision used by the concrete scenarios. -/
def dummyDecision : RouterDecision :=
  { extracted_alerts := none
    extracted_symptoms := none
    extracted_context := none
    next_task := "diagnose_issue"
    urgency_level := "high"
    confidence := 1
    user_message := ""
    primary_intent := "x" }

/-- Concrete redirect parameters used by the concrete scenarios. -/
def rpX : RouteParams :=
  { d1 := dummyDecision, d2 := dummyDecision, clar := "" }

/-- A concrete step whose action type matches the high-risk denylist. -/
def restartStep : Step :=
  { step_id := "s1"
    action_type := "restart_service"
    description := "restart the api service"
    command := "systemctl restart api"
    risk_level := "high" }

/-- A concrete low-risk-flagged plan containing the restart step, so that only
the denylist branch of `_requires_execution_approval` can fire. -/
def restartPlan : ActionPlan :=
  { plan_id := "p1"
    priority := "high"
    risk_assessment := "low"
    approval_required := false
    steps := [restartStep] }

/-- A concrete state whose `action_plan` slot holds the restart plan. -/
def planState : ChatState :=
  { emptyChatState with action_plan := some restartPlan }

/-- `_initialize_node` (src lines 394-396): the identity on the state. -/
def initialize_node (st : ChatState) : ChatState :=
  st

/-- The stage-summary message of a completed alert analysis (src lines 570-579). -/
def alertDoneMessage (ar : AnalysisResult) : String :=
  "🚨 **告警分析完成**\n\n🏷️ **类别**: " ++ ar.category

/-- Commit an alert analysis: write the `analysis_result` slot, then append the
stage-summary message (src lines 558-579). -/
def commit_analysis (st : ChatState) (ar : AnalysisResult) : ChatState :=
  add_ai_message { st with analysis_result := some ar } (alertDoneMessage ar)

/-- One completed execution of `_process_alert_node` (src lines 497-585).
With an alert present, invoke the alert-analyzer oracle (`ar` its result) and
commit.  Without one, consult the oracle router (`d`): an alert-processing
intent applies the extracted info and proceeds if an alert was extracted,
otherwise the node redirects to the router. -/
def process_alert_node (d : RouterDecision) (rp : RouteParams)
    (ar : AnalysisResult) (st : ChatState) : ChatState :=
  match st.alert_info with
  | some _ => commit_analysis st ar
  | none =>
    if get_latest_input st.messages.reverse ≠ "" then
      if d.primary_intent == "alert_processing" then
        let st1 := apply_extracted_info st d
        match st1.alert_info with
        | none => redirect_to_router "process_alert" "告警信息提取失败" rp st1
        | some _ => commit_analysis st1 ar
      else
        redirect_to_router "process_alert" ("非告警处理请求，意图: " ++ d.primary_intent) rp st
    else
      redirect_to_router "process_alert" "缺少用户输入" rp st

/-- The stage-summary message of a completed plan (src lines 815-826). -/
def planDoneMessage (p : ActionPlan) : String :=
  "📋 **行动计划生成完成**\n\n🆔 **计划ID**: " ++ p.plan_id

/-- One completed execution of `_plan_actions_node` (src lines 750-832):
without a diagnostic result, redirect to the router and produce no plan;
otherwise invoke the planner oracle (`p` its structured plan) and commit the
`action_plan` slot. -/
def plan_actions_node (p : ActionPlan) (rp : RouteParams) (st : ChatState) : ChatState :=
  match st.diagnostic_result with
  | none => redirect_to_router "缺少诊断结果" "plan_actions" rp st
  | some _ => add_ai_message { st with action_plan := some p } (planDoneMessage p)

/-- `_plan_actions_condition` (src lines 1425-1441). -/
def plan_actions_condition (st : ChatState) : String :=
  if !st.errors.isEmpty then "error"
  else if !st.diagnostic_result.isSome then "collect_info"
  else if st.action_plan.isSome then "execute_actions"
  else "collect_info"

/-- One completed execution of `_generate_report_node` (src lines 988-1088):
write the `report` slot (a disabled marker when reporting is off, else the
report-writer oracle's result `r`) and append the summary message. -/
def generate_report_node (enable_reporting : Bool) (r : Report)
    (st : ChatState) : ChatState :=
  if !enable_reporting then
    add_ai_message { st with report := some { status := "disabled" } }
      "📋 **报告生成**: 已禁用"
  else
    add_ai_message { st with report := some r } "📋 **运维报告生成完成**"

/-- `_finalize_node` (src lines 1091-1141): in chat mode (messages present,
none yet from the AI) append the closing summary, else the identity. -/
def finalize_node (st : ChatState) : ChatState :=
  if !st.messages.isEmpty && !(st.messages.any (fun m => m.role == "ai")) then
    add_ai_message st "🤖 **智能运维助手**"
  else st

/-- `_error_handler_node` (src lines 1143-1172): with messages present append
the error narrative, else the identity. -/
def error_handler_node (st : ChatState) : ChatState :=
  if !st.messages.isEmpty then add_ai_message st "❌ **处理失败**" else st

/-- One committed node transition of the agent graph: some node ran to
completion (a suspended execution commits nothing) and produced the new state.
Oracle results, gate answers and redirect parameters are arbitrary.
`failLog` covers the `except` clauses that convert an exception into an
`errors` entry (src lines 581-585, 828-832, 1084-1088 and
`_create_error_state`): they touch only `errors`. -/
inductive AgentStep : ChatState → ChatState → Prop
  | initNode (s : ChatState) : AgentStep s (initialize_node s)
  | route (d1 d2 : RouterDecision) (c : String) (s : ChatState) :
      AgentStep s ((intelligent_route_node d1 d2 c s).state)
  | collect (g : Except PyExc String) (s s' : ChatState) :
      collect_info_run g s = Except.ok s' → AgentStep s s'
  | alert (d : RouterDecision) (rp : RouteParams) (ar : AnalysisResult)
      (s : ChatState) : AgentStep s (process_alert_node d rp ar s)
  | diagnose (orc : DiagInput → DiagResult) (ans : String) (rp : RouteParams)
      (s : ChatState) : AgentStep s ((diagnose_issue_node orc ans rp s).state)
  | plan (p : ActionPlan) (rp : RouteParams) (s : ChatState) :
      AgentStep s (plan_actions_node p rp s)
  | exec (reply : String) (auto : Bool) (rp : RouteParams) (s : ChatState) :
      AgentStep s ((execute_actions_node reply auto rp s).state)
  | report (er : Bool) (r : Report) (s : ChatState) :
      AgentStep s (generate_report_node er r s)
  | finalize (s : ChatState) : AgentStep s (finalize_node s)
  | errorNode (s : ChatState) : AgentStep s (error_handler_node s)
  | failLog (s : ChatState) (e : String) :
      AgentStep s { s with errors := s.errors ++ [e] }

/-- The precondition-monotonicity invariant: the `action_plan` slot is never
set while the `diagnostic_result` slot is absent. -/
def DiagBeforePlan (s : ChatState) : Prop :=
  s.action_plan.isSome = true → s.diagnostic_result.isSome = true

/-- A concrete oracle-router decision with near-zero confidence suggesting the
execution stage. -/
def lowConfDecision : RouterDecision :=
  { extracted_alerts := none
    extracted_symptoms := none
    extracted_context := none
    next_task := "execute_actions"
    urgency_level := "high"
    confidence := 1/10
    user_message := ""
    primary_intent := "x" }

/-- A concrete entry state: one human message, every slot absent. -/
def entryState : ChatState :=
  { emptyChatState with messages := [{ role := "human", content := "服务器挂了" }] }

/-- Claim C4: any plan containing a denylist-matching step (for example one
whose action type is restart_service) makes the execute-actions node invoke the
approval gate, and an operator reply of exactly "rejected" commits an
execution result with status rejected_by_operator and an empty executed-steps
list — no step of the plan runs. -/
theorem C4_risk_approval (st : ChatState) (plan : ActionPlan)
    (rp : RouteParams) (auto : Bool)
    (hplan : st.action_plan = some plan)
    (hstep : plan.steps.any step_is_high_risk = true) :
    (execute_actions_node "rejected" auto rp st).approvalRequested = true ∧
    (execute_actions_node "rejected" auto rp st).state.execution_result =
      some { status := "rejected_by_operator"
             plan_id := plan.plan_id
             reason := "执行被拒绝: rejected"
             executed_steps := []
             failed_steps := []
             approval_received := false } := by
  have hreq : requires_execution_approval plan = true := by
    unfold requires_execution_approval
    split
    · rfl
    · split
      · rfl
      · exact hstep
  unfold execute_actions_node
  rw [hplan]
  simp only [hreq, if_true]
  have hrej : approval_vocab_rejected.contains (strLower "rejected") = true := by decide
  rw [if_pos hrej]
  exact ⟨rfl, rfl⟩

/-- Witness for C4 at a concrete input: a single-step plan whose action type is
restart_service, reply "rejected". -/
theorem C4_risk_approval_witness :
    planState.action_plan = some restartPlan ∧
    restartPlan.steps.any step_is_high_risk = true ∧
    (execute_actions_node "rejected" true rpX planState).approvalRequested = true ∧
    (execute_actions_node "rejected" true rpX planState).state.execution_result =
      some { status := "rejected_by_operator"
             plan_id := restartPlan.plan_id
             reason := "执行被拒绝: rejected"
             executed_steps := []
             failed_steps := []
             approval_received := false } := by
  refine ⟨rfl, by decide, ?_, ?_⟩
  · exact (C4_risk_approval planState restartPlan rpX true rfl (by decide)).1
  · exact (C4_risk_approval planState restartPlan rpX true rfl (by decide)).2

/-- Claim C5 (counterexample): the approval branch does NOT use substring
matching.  The reply "No thanks" contains the rejection word "no"
(case-insensitively), yet the execute-actions node treats it as approval and
runs the plan: the execution result is "success" with the step executed, not a
rejection. -/
theorem C5_counterexample :
    strHasSub (strLower "No thanks") "no" = true ∧
    (execute_actions_node "No thanks" true rpX planState).state.execution_result.map
      ExecResult.status = some "success" ∧
    (execute_actions_node "No thanks" true rpX planState).state.execution_result.map
      ExecResult.executed_steps = some ["s1"] := by
  decide

/-- Claim C5 (amended): the approval branch maps the lowercased reply by EXACT
membership in the canonical vocabulary, not substring matching: for a plan
requiring approval, the decision is rejected (execution status
rejected_by_operator) exactly when the lowercased reply is one of
"rejected", "deny", "no", "cancel". -/
theorem C5_amended (st : ChatState) (plan : ActionPlan) (reply : String)
    (rp : RouteParams) (auto : Bool)
    (hplan : st.action_plan = some plan)
    (hreq : requires_execution_approval plan = true) :
    ((execute_actions_node reply auto rp st).state.execution_result.map
        ExecResult.status = some "rejected_by_operator") ↔
      approval_vocab_rejected.contains (strLower reply) = true := by
  unfold execute_actions_node
  rw [hplan]
  simp only [hreq, if_true]
  cases h1 : approval_vocab_rejected.contains (strLower reply)
  · cases h2 : approval_vocab_modified.contains (strLower reply)
    · simp [run_execution, add_ai_message]
    · simp [add_ai_message]
  · simp [add_ai_message]

/-- Witness for C5 (amended) at a concrete input: reply "deny" on the plan
requiring approval is rejected. -/
theorem C5_amended_witness :
    planState.action_plan = some restartPlan ∧
    requires_execution_approval restartPlan = true ∧
    (((execute_actions_node "deny" true rpX planState).state.execution_result.map
        ExecResult.status = some "rejected_by_operator") ↔
      approval_vocab_rejected.contains (strLower "deny") = true) :=
  ⟨rfl, by decide, C5_amended planState restartPlan "deny" rpX true rfl (by decide)⟩

/-- Claim C10: any approval reply whose lowercased text is not an exact member
of the rejection vocabulary nor of the modification vocabulary — including
replies such as "No thanks" that merely contain a rejection word — is treated
as approval: the node runs the plan, executing every step, with execution
status success. -/
theorem C10_default_approve (st : ChatState) (plan : ActionPlan) (reply : String)
    (rp : RouteParams) (auto : Bool)
    (hplan : st.action_plan = some plan)
    (hreq : requires_execution_approval plan = true)
    (hrej : approval_vocab_rejected.contains (strLower reply) = false)
    (hmod : approval_vocab_modified.contains (strLower reply) = false) :
    (execute_actions_node reply auto rp st).approvalRequested = true ∧
    (execute_actions_node reply auto rp st).state.execution_result =
      some { status := "success"
             plan_id := plan.plan_id
             reason := ""
             executed_steps := plan.steps.map Step.step_id
             failed_steps := []
             approval_received := true } := by
  unfold execute_actions_node
  rw [hplan]
  simp only [hreq, if_true, hrej, hmod, Bool.false_eq_true, if_false]
  exact ⟨by trivial, by simp [run_execution, add_ai_message, hreq]⟩

/-- Witness for C10 at a concrete input: reply "No thanks" (contains the
rejection word "no" but is not an exact vocabulary member) executes the plan. -/
theorem C10_default_approve_witness :
    planState.action_plan = some restartPlan ∧
    requires_execution_approval restartPlan = true ∧
    approval_vocab_rejected.contains (strLower "No thanks") = false ∧
    approval_vocab_modified.contains (strLower "No thanks") = false ∧
    (execute_actions_node "No thanks" true rpX planState).state.execution_result =
      some { status := "success"
             plan_id := restartPlan.plan_id
             reason := ""
             executed_steps := restartPlan.steps.map Step.step_id
             failed_steps := []
             approval_received := true } :=
  ⟨rfl, by decide, by decide, by decide,
    (C10_default_approve planState restartPlan "No thanks" rpX true rfl
      (by decide) (by decide) (by decide)).2⟩

/-- Claim C6 (code evaluated at the failing input): a modification-requested
reply does NOT route back to the planning stage.  With the studio default
(reporting enabled), after the node commits status modification_requested, the
condition function `_execute_actions_condition` returns "generate_report" — a
label that is not "plan_actions" and is not even among the targets the graph
maps for this conditional edge — although the node's own message announces a
return to the planning stage. -/
theorem C6_modification_not_replanned :
    (execute_actions_node "modified" true rpX planState).state.execution_result.map
      ExecResult.status = some "modification_requested" ∧
    execute_actions_condition true
      (execute_actions_node "modified" true rpX planState).state = "generate_report" ∧
    execute_actions_condition true
      (execute_actions_node "modified" true rpX planState).state ≠ "plan_actions" ∧
    execute_actions_edge_targets.contains "generate_report" = false ∧
    strHasSub (modificationMessage "modified") "行动规划阶段" = true := by
  decide

/-- Claim C2 (counterexample): on the entirely empty Shared State the Router's
stage-selection function `_route_condition` does NOT return
information-collection (`"collect_info"`), contrary to the claim. -/
theorem C2_counterexample : route_condition emptyChatState ≠ "collect_info" := by
  decide

/-- Claim C2 (amended): on the entirely empty Shared State `_route_condition`
returns `"diagnose_issue"` — the hard-coded default of its data-driven chain —
a pipeline stage whose own precondition (at least one of alert, symptoms,
context) is unmet there; it does not return information-collection. -/
theorem C2_amended : route_condition emptyChatState = "diagnose_issue" := by
  decide

/-- Claim C3: whenever the diagnose node's first oracle result has confidence
below 0.7 (and the node's precondition holds so the oracle is reached), the
Human-Interaction Gate is invoked exactly once; the oracle is invoked at most
twice in total — exactly twice when the operator's answer has content
(non-blank), and exactly once, keeping the original result, when the answer is
empty. -/
theorem C3_confidence_gate (orc : DiagInput → DiagResult) (ans : String)
    (rp : RouteParams) (st : ChatState)
    (hpre : (truthyList st.symptoms || truthyList st.context
              || st.alert_info.isSome) = true)
    (hconf : (orc (baseDiagInput st)).confidence_score < 0.7) :
    (diagnose_issue_node orc ans rp st).gateCalls = 1 ∧
    ((diagnose_issue_node orc ans rp st).oracleCalls = 1 ∨
      (diagnose_issue_node orc ans rp st).oracleCalls = 2) ∧
    (strBlank ans = false → (diagnose_issue_node orc ans rp st).oracleCalls = 2) ∧
    (ans = "" → (diagnose_issue_node orc ans rp st).oracleCalls = 1 ∧
      (diagnose_issue_node orc ans rp st).state.diagnostic_result =
        some (orc (baseDiagInput st))) := by
  unfold diagnose_issue_node
  rw [hpre]
  simp only [Bool.not_true, Bool.false_eq_true, if_false, if_pos hconf]
  by_cases hans : ans ≠ "" ∧ strBlank ans = false
  · rw [if_pos hans]
    refine ⟨rfl, Or.inr rfl, fun _ => rfl, fun he => absurd he hans.1⟩
  · rw [if_neg hans]
    refine ⟨rfl, Or.inl rfl, fun ht => ?_, fun _ => ⟨rfl, rfl⟩⟩
    exact absurd ⟨fun he => absurd (he ▸ ht) (by decide), ht⟩ hans

/-- Witness for C3 at a concrete input: symptoms present, first oracle result
of confidence 0.4, operator answer with content — the gate fires once and the
oracle runs exactly twice. -/
theorem C3_confidence_gate_witness :
    (truthyList (some ["CPU 使用率高"]) || truthyList (none : Option (List (String × String)))
        || (none : Option AlertInfo).isSome) = true ∧
    ((2 : ℚ) / 5 < 0.7) ∧
    (diagnose_issue_node
        (fun i => { root_cause := "unknown", confidence_score := 2/5,
                    impact_assessment := "medium", affected_components := [],
                    business_impact := "low", recovery_time_estimate := "1h",
                    evidence := i.extra_log })
        "磁盘已满"
        ⟨⟨none, none, none, "diagnose_issue", "high", 1, "", "x"⟩,
         ⟨none, none, none, "diagnose_issue", "high", 1, "", "x"⟩, ""⟩
        { emptyChatState with symptoms := some ["CPU 使用率高"] }).gateCalls = 1 ∧
    (diagnose_issue_node
        (fun i => { root_cause := "unknown", confidence_score := 2/5,
                    impact_assessment := "medium", affected_components := [],
                    business_impact := "low", recovery_time_estimate := "1h",
                    evidence := i.extra_log })
        "磁盘已满"
        ⟨⟨none, none, none, "diagnose_issue", "high", 1, "", "x"⟩,
         ⟨none, none, none, "diagnose_issue", "high", 1, "", "x"⟩, ""⟩
        { emptyChatState with symptoms := some ["CPU 使用率高"] }).oracleCalls = 2 := by
  refine ⟨by decide, by norm_num, ?_, ?_⟩
  · exact (C3_confidence_gate _ _ _ _ (by decide) (by norm_num)).1
  · exact (C3_confidence_gate _ _ _ _ (by decide) (by norm_num)).2.2.1 (by decide)


/-- Claim C1 (code evaluated at the failing input): the claim — and the spec —
require the suspension signal to escape every node unmodified, but the
information-collection node's bare `except Exception` swallows it: when
`request_operator_input` raises `GraphInterrupt` inside `_collect_info_node`,
the node returns normally with the signal converted into an `errors` entry
(so the workflow never suspends and the pending human request is lost), while
the sibling handler `_diagnose_issue_node` re-raises the very same signal. -/
theorem C1_suspension_swallowed :
    collect_info_run (Except.error graphInterruptExc) emptyChatState =
      Except.ok { emptyChatState with
                    errors := ["collect_info error: interrupt request pending"] } ∧
    diagnose_issue_except emptyChatState graphInterruptExc =
      Except.error graphInterruptExc := by
  constructor
  · rfl
  · rfl

/-- `apply_alert` touches only the `alert_info` slot. -/
theorem apply_alert_parts (st : ChatState) (d : RouterDecision) :
    (apply_alert st d).messages = st.messages ∧
    (apply_alert st d).symptoms = st.symptoms ∧
    (apply_alert st d).action_plan = st.action_plan ∧
    (apply_alert st d).diagnostic_result = st.diagnostic_result := by
  unfold apply_alert
  split
  · split
    · exact ⟨rfl, rfl, rfl, rfl⟩
    · exact ⟨rfl, rfl, rfl, rfl⟩
  · exact ⟨rfl, rfl, rfl, rfl⟩

/-- `apply_symptoms` touches only the `symptoms` slot. -/
theorem apply_symptoms_parts (st : ChatState) (d : RouterDecision) :
    (apply_symptoms st d).messages = st.messages ∧
    (apply_symptoms st d).context = st.context ∧
    (apply_symptoms st d).action_plan = st.action_plan ∧
    (apply_symptoms st d).diagnostic_result = st.diagnostic_result := by
  unfold apply_symptoms
  split
  · split
    · exact ⟨rfl, rfl, rfl, rfl⟩
    · exact ⟨rfl, rfl, rfl, rfl⟩
  · exact ⟨rfl, rfl, rfl, rfl⟩

/-- `apply_context` touches only the `context` slot. -/
theorem apply_context_parts (st : ChatState) (d : RouterDecision) :
    (apply_context st d).messages = st.messages ∧
    (apply_context st d).symptoms = st.symptoms ∧
    (apply_context st d).action_plan = st.action_plan ∧
    (apply_context st d).diagnostic_result = st.diagnostic_result := by
  unfold apply_context
  split
  · split
    · exact ⟨rfl, rfl, rfl, rfl⟩
    · exact ⟨rfl, rfl, rfl, rfl⟩
  · exact ⟨rfl, rfl, rfl, rfl⟩

/-- `_apply_extracted_info` never touches messages, `action_plan` or
`diagnostic_result`. -/
theorem apply_extracted_parts (st : ChatState) (d : RouterDecision) :
    (apply_extracted_info st d).messages = st.messages ∧
    (apply_extracted_info st d).action_plan = st.action_plan ∧
    (apply_extracted_info st d).diagnostic_result = st.diagnostic_result := by
  unfold apply_extracted_info
  obtain ⟨a1, a2, a3, a4⟩ := apply_alert_parts st d
  obtain ⟨b1, b2, b3, b4⟩ := apply_symptoms_parts (apply_alert st d) d
  obtain ⟨c1, c2, c3, c4⟩ := apply_context_parts (apply_symptoms (apply_alert st d) d) d
  exact ⟨by rw [c1, b1, a1], by rw [c3, b3, a3], by rw [c4, b4, a4]⟩

/-- With a truthy symptom extraction, `_apply_extracted_info` unions the
extracted list into the `symptoms` slot. -/
theorem apply_extracted_symptoms_some (st : ChatState) (d : RouterDecision)
    (l : List String) (h : d.extracted_symptoms = some l)
    (hne : l.isEmpty = false) :
    (apply_extracted_info st d).symptoms =
      some (pySetUnion (st.symptoms.getD []) l) := by
  unfold apply_extracted_info
  obtain ⟨-, hs, -, -⟩ := apply_alert_parts st d
  obtain ⟨-, hcs, -, -⟩ := apply_context_parts (apply_symptoms (apply_alert st d) d) d
  rw [hcs]
  simp [apply_symptoms, h, hne, hs]

/-- The route node never touches `action_plan` or `diagnostic_result`. -/
theorem route_node_slots (d1 d2 : RouterDecision) (c : String) (st : ChatState) :
    ((intelligent_route_node d1 d2 c st).state).action_plan = st.action_plan ∧
    ((intelligent_route_node d1 d2 c st).state).diagnostic_result = st.diagnostic_result := by
  simp only [intelligent_route_node]
  split
  · exact ⟨rfl, rfl⟩
  · split
    · split
      · obtain ⟨-, hp, hd⟩ := apply_extracted_parts
          { st with messages := st.messages ++ [{ role := "human", content := c }] } d2
        exact ⟨hp, hd⟩
      · obtain ⟨-, hp, hd⟩ := apply_extracted_parts st d1
        exact ⟨hp, hd⟩
    · obtain ⟨-, hp, hd⟩ := apply_extracted_parts st d1
      exact ⟨hp, hd⟩

/-- A redirect never touches `action_plan` or `diagnostic_result`. -/
theorem redirect_slots (reason intent : String) (rp : RouteParams) (st : ChatState) :
    (redirect_to_router reason intent rp st).action_plan = st.action_plan ∧
    (redirect_to_router reason intent rp st).diagnostic_result = st.diagnostic_result := by
  unfold redirect_to_router
  exact route_node_slots rp.d1 rp.d2 rp.clar
    (add_ai_message st (redirect_message reason intent))

/-- The diagnose node preserves `action_plan`, and either writes a diagnosis
or leaves `diagnostic_result` unchanged. -/
theorem diagnose_node_slots (orc : DiagInput → DiagResult) (ans : String)
    (rp : RouteParams) (st : ChatState) :
    ((diagnose_issue_node orc ans rp st).state).action_plan = st.action_plan ∧
    (((diagnose_issue_node orc ans rp st).state).diagnostic_result.isSome = true ∨
      ((diagnose_issue_node orc ans rp st).state).diagnostic_result = st.diagnostic_result) := by
  simp only [diagnose_issue_node]
  split
  · obtain ⟨hp, hd⟩ := redirect_slots "缺少基本问题信息（症状、上下文或告警）"
      "diagnose_issue" rp st
    exact ⟨hp, Or.inr hd⟩
  · split
    · split
      · exact ⟨rfl, Or.inl rfl⟩
      · exact ⟨rfl, Or.inl rfl⟩
    · exact ⟨rfl, Or.inl rfl⟩

/-- The execute node never touches `action_plan` or `diagnostic_result`. -/
theorem exec_node_slots (reply : String) (auto : Bool) (rp : RouteParams)
    (st : ChatState) :
    ((execute_actions_node reply auto rp st).state).action_plan = st.action_plan ∧
    ((execute_actions_node reply auto rp st).state).diagnostic_result = st.diagnostic_result := by
  simp only [execute_actions_node]
  split
  · exact redirect_slots "缺少行动计划" "execute_actions" rp st
  · split
    · split
      · exact ⟨rfl, rfl⟩
      · split
        · exact ⟨rfl, rfl⟩
        · exact ⟨rfl, rfl⟩
    · split
      · exact ⟨rfl, rfl⟩
      · exact ⟨rfl, rfl⟩

/-- The alert node never touches `action_plan` or `diagnostic_result`. -/
theorem alert_node_slots (d : RouterDecision) (rp : RouteParams)
    (ar : AnalysisResult) (st : ChatState) :
    (process_alert_node d rp ar st).action_plan = st.action_plan ∧
    (process_alert_node d rp ar st).diagnostic_result = st.diagnostic_result := by
  simp only [process_alert_node]
  split
  · exact ⟨rfl, rfl⟩
  · split
    · split
      · split
        · obtain ⟨hp, hd⟩ := redirect_slots "process_alert" "告警信息提取失败" rp
            (apply_extracted_info st d)
          obtain ⟨-, hp2, hd2⟩ := apply_extracted_parts st d
          exact ⟨hp.trans hp2, hd.trans hd2⟩
        · obtain ⟨-, hp2, hd2⟩ := apply_extracted_parts st d
          exact ⟨hp2, hd2⟩
      · exact redirect_slots "process_alert"
          ("非告警处理请求，意图: " ++ d.primary_intent) rp st
    · exact redirect_slots "process_alert" "缺少用户输入" rp st

/-- A committed collect-info run only appends a message or an error entry. -/
theorem collect_run_slots (g : Except PyExc String) (s t : ChatState)
    (h : collect_info_run g s = Except.ok t) :
    t.action_plan = s.action_plan ∧ t.diagnostic_result = s.diagnostic_result := by
  unfold collect_info_run at h
  cases g with
  | ok info =>
    cases h
    exact ⟨rfl, rfl⟩
  | error e =>
    unfold collect_info_except at h
    cases h
    exact ⟨rfl, rfl⟩

/-- The plan node preserves the precondition-monotonicity invariant: it only
writes `action_plan` when `diagnostic_result` is present. -/
theorem plan_node_inv (p : ActionPlan) (rp : RouteParams) (st : ChatState)
    (hInv : DiagBeforePlan st) : DiagBeforePlan (plan_actions_node p rp st) := by
  unfold plan_actions_node
  cases hD : st.diagnostic_result with
  | none =>
    show DiagBeforePlan (redirect_to_router "缺少诊断结果" "plan_actions" rp st)
    intro hap
    obtain ⟨hp, hd⟩ := redirect_slots "缺少诊断结果" "plan_actions" rp st
    rw [hp] at hap
    rw [hd]
    exact hInv hap
  | some r =>
    intro _
    rfl

/-- Every committed node transition preserves precondition monotonicity. -/
theorem agent_step_preserves_inv (s t : ChatState) (h : AgentStep s t)
    (hInv : DiagBeforePlan s) : DiagBeforePlan t := by
  cases h with
  | initNode => exact hInv
  | route d1 d2 c =>
    obtain ⟨hp, hd⟩ := route_node_slots d1 d2 c s
    intro hap; rw [hp] at hap; rw [hd]; exact hInv hap
  | collect g _ _ hok =>
    obtain ⟨hp, hd⟩ := collect_run_slots g s t hok
    intro hap; rw [hp] at hap; rw [hd]; exact hInv hap
  | alert d rp ar =>
    obtain ⟨hp, hd⟩ := alert_node_slots d rp ar s
    intro hap; rw [hp] at hap; rw [hd]; exact hInv hap
  | diagnose orc ans rp =>
    obtain ⟨hp, hor⟩ := diagnose_node_slots orc ans rp s
    intro hap
    cases hor with
    | inl h2 => exact h2
    | inr h2 => rw [hp] at hap; rw [h2]; exact hInv hap
  | plan p rp => exact plan_node_inv p rp s hInv
  | exec reply auto rp =>
    obtain ⟨hp, hd⟩ := exec_node_slots reply auto rp s
    intro hap; rw [hp] at hap; rw [hd]; exact hInv hap
  | report er r =>
    unfold generate_report_node
    split
    · exact hInv
    · exact hInv
  | finalize =>
    unfold finalize_node
    split
    · exact hInv
    · exact hInv
  | errorNode =>
    unfold error_handler_node
    split
    · exact hInv
    · exact hInv
  | failLog e => exact hInv

/-- Claim C7: precondition monotonicity.  In every state reachable through
committed node transitions from a state satisfying the invariant (in
particular from the initial empty state), `action_plan` is never set while
`diagnostic_result` is absent; moreover the plan node, invoked on a state
without a diagnostic result, produces no plan (its `action_plan` slot is
unchanged by the redirect), and the graph condition after `plan_actions` on
such an error-free state routes to information-collection. -/
theorem C7_precondition_monotonicity (s0 s : ChatState) (p : ActionPlan)
    (rp : RouteParams) (t : ChatState)
    (h0 : DiagBeforePlan s0)
    (hreach : Relation.ReflTransGen AgentStep s0 s)
    (ht : t.diagnostic_result = none) (hterr : t.errors = []) :
    DiagBeforePlan s ∧
    (plan_actions_node p rp t).action_plan = t.action_plan ∧
    plan_actions_condition t = "collect_info" := by
  refine ⟨?_, ?_, ?_⟩
  · induction hreach with
    | refl => exact h0
    | tail _ hstep ih => exact agent_step_preserves_inv _ _ hstep ih
  · unfold plan_actions_node
    rw [ht]
    exact (redirect_slots "缺少诊断结果" "plan_actions" rp t).1
  · unfold plan_actions_condition
    rw [hterr, ht]
    rfl

/-- Witness for C7 at the concrete initial state: the empty state satisfies
the invariant and is trivially reachable, and the plan node on it produces no
plan and is routed to information-collection. -/
theorem C7_precondition_monotonicity_witness :
    DiagBeforePlan emptyChatState ∧
    (plan_actions_node restartPlan rpX emptyChatState).action_plan =
      emptyChatState.action_plan ∧
    plan_actions_condition emptyChatState = "collect_info" :=
  C7_precondition_monotonicity emptyChatState emptyChatState restartPlan rpX
    emptyChatState (fun h => absurd h (by decide)) Relation.ReflTransGen.refl rfl rfl

/-- Claim C8: merging extracted symptoms is a deduplicating, order-independent
(set-level) union that never removes existing symptoms: merging `[a, b]` and
then `[b, c]` into any state yields a duplicate-free symptom list whose
underlying set is the existing set united with `{a, b, c}` — in particular,
exactly `{a, b, c}` when no symptoms were present. -/
theorem C8_symptom_union (st : ChatState) (d1 d2 : RouterDecision)
    (a b c : String)
    (h1 : d1.extracted_symptoms = some [a, b])
    (h2 : d2.extracted_symptoms = some [b, c]) :
    (apply_extracted_info (apply_extracted_info st d1) d2).symptoms ≠ none ∧
    ((apply_extracted_info (apply_extracted_info st d1) d2).symptoms.getD []).Nodup ∧
    ((apply_extracted_info (apply_extracted_info st d1) d2).symptoms.getD []).toFinset =
      (st.symptoms.getD []).toFinset ∪ {a, b, c} := by
  have e1 : (apply_extracted_info st d1).symptoms =
      some (pySetUnion (st.symptoms.getD []) [a, b]) :=
    apply_extracted_symptoms_some st d1 [a, b] h1 rfl
  have e2 : (apply_extracted_info (apply_extracted_info st d1) d2).symptoms =
      some (pySetUnion ((apply_extracted_info st d1).symptoms.getD []) [b, c]) :=
    apply_extracted_symptoms_some (apply_extracted_info st d1) d2 [b, c] h2 rfl
  rw [e1] at e2
  rw [e2]
  refine ⟨by simp, ?_, ?_⟩
  · simp [pySetUnion, List.nodup_dedup]
  · ext x
    simp only [pySetUnion, Option.getD_some, List.mem_toFinset,
      List.mem_append, List.mem_dedup, Finset.mem_union, Finset.mem_insert,
      Finset.mem_singleton, List.mem_cons, List.not_mem_nil, or_false]
    tauto

/-- Witness for C8 at a concrete input: the empty state with extractions
`["a", "b"]` then `["b", "c"]`. -/
theorem C8_symptom_union_witness :
    (apply_extracted_info
        (apply_extracted_info emptyChatState
          { dummyDecision with extracted_symptoms := some ["a", "b"] })
        { dummyDecision with extracted_symptoms := some ["b", "c"] }).symptoms ≠ none ∧
    ((apply_extracted_info
        (apply_extracted_info emptyChatState
          { dummyDecision with extracted_symptoms := some ["a", "b"] })
        { dummyDecision with extracted_symptoms := some ["b", "c"] }).symptoms.getD []).Nodup ∧
    ((apply_extracted_info
        (apply_extracted_info emptyChatState
          { dummyDecision with extracted_symptoms := some ["a", "b"] })
        { dummyDecision with extracted_symptoms := some ["b", "c"] }).symptoms.getD []).toFinset =
      (emptyChatState.symptoms.getD []).toFinset ∪ {"a", "b", "c"} :=
  C8_symptom_union emptyChatState
    { dummyDecision with extracted_symptoms := some ["a", "b"] }
    { dummyDecision with extracted_symptoms := some ["b", "c"] }
    "a" "b" "c" rfl rfl

/-- Claim C9 (counterexample): at oracle-router confidence 1/10 (below the 0.2
threshold, hence "not exceeding" it), the route node requests clarification
and — when none is supplied — still records the low-confidence suggestion in
its routing-analysis message, which the stage-selection function then follows:
the chosen stage is the oracle's "execute_actions" suggestion, while the
deterministic data-driven inference on the same state would choose
"diagnose_issue".  The router's suggestion IS acted on; the system does not
fall back to data-driven inference. -/
theorem C9_counterexample :
    lowConfDecision.confidence < 0.2 ∧
    (intelligent_route_node lowConfDecision dummyDecision "" entryState).clarificationRequested
      = true ∧
    route_condition
      (intelligent_route_node lowConfDecision dummyDecision "" entryState).state
      = "execute_actions" ∧
    data_driven_route
      (intelligent_route_node lowConfDecision dummyDecision "" entryState).state
      = "diagnose_issue" := by
  have hconf : lowConfDecision.confidence < 0.2 := by norm_num [lowConfDecision]
  have hnode : intelligent_route_node lowConfDecision dummyDecision "" entryState =
      { state := add_ai_message (apply_extracted_info entryState lowConfDecision)
          (routing_analysis_message lowConfDecision)
        clarificationRequested := true } := by
    simp only [intelligent_route_node]
    rw [if_neg (by decide : ¬(get_latest_input entryState.messages.reverse = ""))]
    rw [if_pos hconf]
    rw [if_neg (by simp : ¬(("" : String) ≠ "" ∧ strBlank "" = false))]
  refine ⟨hconf, by rw [hnode], ?_, ?_⟩
  · rw [hnode]
    decide
  · rw [hnode]
    decide

/-- Claim C9 (amended): when the oracle router's confidence is strictly below
0.2, the route node does not fall back to deterministic inference; it requests
clarification through the Human-Interaction Gate and, when no clarification is
supplied, records the low-confidence decision's suggested stage in the
routing-analysis message, which the stage-selection function then follows
(shown here for the suggestion "execute_actions", with no user feedback text):
the near-zero-confidence suggestion is acted on.  Data-driven inference is
consulted only when no routing-analysis message exists in the log. -/
theorem C9_amended (st : ChatState) (d1 d2 : RouterDecision)
    (hin : ¬(get_latest_input st.messages.reverse = ""))
    (hconf : d1.confidence < 0.2)
    (hnt : d1.next_task = "execute_actions")
    (hu : d1.urgency_level = "high")
    (hm : d1.user_message = "") :
    (intelligent_route_node d1 d2 "" st).clarificationRequested = true ∧
    route_condition (intelligent_route_node d1 d2 "" st).state = "execute_actions" := by
  have hcontent : routing_analysis_message d1 =
      "🧠 **智能路由分析完成**\n\n🎯 **下一步任务**: execute_actions\n📊 **置信度**: \n🚨 **紧急程度**: high\n💡 **用户消息**: " := by
    unfold routing_analysis_message
    rw [hnt, hu, hm]
    rfl
  have hnode : intelligent_route_node d1 d2 "" st =
      { state := add_ai_message (apply_extracted_info st d1)
          (routing_analysis_message d1)
        clarificationRequested := true } := by
    simp only [intelligent_route_node]
    rw [if_neg hin]
    rw [if_pos hconf]
    rw [if_neg (by simp : ¬(("" : String) ≠ "" ∧ strBlank "" = false))]
  refine ⟨by rw [hnode], ?_⟩
  rw [hnode]
  have hmsgs : (add_ai_message (apply_extracted_info st d1)
      (routing_analysis_message d1)).messages =
      st.messages ++ [{ role := "ai", content := routing_analysis_message d1 }] := by
    unfold add_ai_message
    rw [(apply_extracted_parts st d1).1]
  unfold route_condition
  rw [hmsgs, List.reverse_append, List.reverse_singleton, List.singleton_append]
  have hscan : scan_routing_messages
      ({ role := "ai", content := routing_analysis_message d1 } :: st.messages.reverse) =
      some "execute_actions" := by
    rw [hcontent]
    simp only [scan_routing_messages]
    rw [if_pos (by decide)]
    rw [show stage_from_routing_message
        "🧠 **智能路由分析完成**\n\n🎯 **下一步任务**: execute_actions\n📊 **置信度**: \n🚨 **紧急程度**: high\n💡 **用户消息**: "
        = some "execute_actions" from by decide]
  rw [hscan]

/-- Witness for C9 (amended) at the concrete entry state and the concrete
near-zero-confidence decision suggesting "execute_actions". -/
theorem C9_amended_witness :
    ¬(get_latest_input entryState.messages.reverse = "") ∧
    lowConfDecision.confidence < 0.2 ∧
    (intelligent_route_node lowConfDecision dummyDecision "" entryState).clarificationRequested
      = true ∧
    route_condition
      (intelligent_route_node lowConfDecision dummyDecision "" entryState).state
      = "execute_actions" := by
  refine ⟨by decide, by norm_num [lowConfDecision], ?_, ?_⟩
  · exact (C9_amended entryState lowConfDecision dummyDecision (by decide)
      (by norm_num [lowConfDecision]) rfl rfl rfl).1
  · exact (C9_amended entryState lowConfDecision dummyDecision (by decide)
      (by norm_num [lowConfDecision]) rfl rfl rfl).2
